import Mathlib

/-!
Verification development for the snowmass-monitor repository.

The definitions below are a shallow embedding of the core logic of
src/api/snowmass-monitor.js: the visual diff classifier
(performVisualComparison), the baseline comparison wrapper
(compareWithBaseline), the per-period orchestration loop (runMonitor) and
the HTTP handler response, the notification throttle
(checkNotificationLimit), and the text-extraction confidence score of
validateMonthWithTextExtraction.

Image buffers are modelled as lists of integers (byte values); JavaScript
numbers that can be NaN or Infinity (the derived percentage metrics, whose
denominator can be 0) are modelled by the JsNum type.  The source compares
Math.sqrt of the squared RGB distance with 30; since both sides are
nonnegative this is equivalent to comparing the squared distance with 900,
which is how colorDiffSq is used here.
-/

namespace Snowmass

/-- Running counters of the per-pixel loop in performVisualComparison. -/
structure Counts where
  totalPixels : Nat
  changedPixels : Nat
  availabilityIncrease : Nat
  dateHighlightChanges : Nat
  nonAvailabilityChanges : Nat
deriving DecidableEq

/-- Squared Euclidean RGB distance between a current and a baseline pixel. -/
def colorDiffSq (cr cg cb br bg bb : Int) : Int :=
  (cr - br) ^ 2 + (cg - bg) ^ 2 + (cb - bb) ^ 2

/-- Date-highlight colour bands (light blue/white, blue, light gray). -/
def isDateHighlight (r g b : Int) : Bool :=
  (decide (r > 200) && decide (g > 200) && decide (b > 240)) ||
  (decide (r > 150) && decide (g > 170) && decide (b > 200)) ||
  (decide ((r - g).natAbs < 20) && decide ((g - b).natAbs < 20) && decide (r > 180))

/-- Availability colour bands: neutral light gray/beige, and tan/beige with
red exceeding blue by more than 10. -/
def isAvailable (r g b : Int) : Bool :=
  (decide (215 ≤ r) && decide (r ≤ 240) &&
   decide (215 ≤ g) && decide (g ≤ 240) &&
   decide (210 ≤ b) && decide (b ≤ 235) &&
   decide ((r - g).natAbs < 15) && decide ((g - b).natAbs < 15)) ||
  (decide (210 ≤ r) && decide (r ≤ 235) &&
   decide (205 ≤ g) && decide (g ≤ 230) &&
   decide (190 ≤ b) && decide (b ≤ 220) &&
   decide (r > b + 10))

/-- Near-white background test for the baseline pixel. -/
def isBackground (r g b : Int) : Bool :=
  decide (r > 240) && decide (g > 240) && decide (b > 240)

/-- One iteration of the pixel loop of performVisualComparison, for the
current pixel (cr,cg,cb) against the baseline pixel (br,bg,bb). -/
def stepPixel (s : Counts) (cr cg cb br bg bb : Int) : Counts :=
  let s1 : Counts := { s with totalPixels := s.totalPixels + 1 }
  if colorDiffSq cr cg cb br bg bb > 900 then
    if isDateHighlight cr cg cb || isDateHighlight br bg bb then
      { s1 with dateHighlightChanges := s1.dateHighlightChanges + 1 }
    else
      let s2 : Counts := { s1 with changedPixels := s1.changedPixels + 1 }
      if isAvailable cr cg cb && !(isAvailable br bg bb) && !(isBackground br bg bb) then
        { s2 with availabilityIncrease := s2.availabilityIncrease + 1 }
      else if !(isAvailable cr cg cb) && !(isAvailable br bg bb) then
        { s2 with nonAvailabilityChanges := s2.nonAvailabilityChanges + 1 }
      else s2
  else s1

/-- RGB bytes of pixel number k of a buffer (bytes 4k, 4k+1, 4k+2). -/
def pixelAt (buf : List Int) (k : Nat) : Int × Int × Int :=
  (buf.getD (4 * k) 0, buf.getD (4 * k + 1) 0, buf.getD (4 * k + 2) 0)

/-- The pixel loop: the source iterates i over the common prefix length in
steps of 4 and processes a pixel only when i+3 is still inside it, so
exactly (min of the lengths) / 4 pixels are visited. -/
def foldPixels (baselineBuffer currentBuffer : List Int) : Counts :=
  let n := (min baselineBuffer.length currentBuffer.length) / 4
  (List.range n).foldl
    (fun s k =>
      let c := pixelAt currentBuffer k
      let b := pixelAt baselineBuffer k
      stepPixel s c.1 c.2.1 c.2.2 b.1 b.2.1 b.2.2)
    ⟨0, 0, 0, 0, 0⟩

/-- A JavaScript number that may be NaN or Infinity.  The metric divisions
of the source produce NaN when the denominator is 0 and the numerator is 0,
and Infinity when only the denominator is 0. -/
inductive JsNum where
  | nan : JsNum
  | inf : JsNum
  | val : ℚ → JsNum
deriving DecidableEq

/-- num / den * 100 with JavaScript division semantics.  The finite value
is written with mkRat so that it evaluates inside the kernel; the lemma
jsRatioTimes100_eq_div below shows it equals (num / den) * 100 exactly. -/
def jsRatioTimes100 (num den : Nat) : JsNum :=
  if den = 0 then (if num = 0 then JsNum.nan else JsNum.inf)
  else JsNum.val (mkRat (num * 100) den)

/-- JavaScript comparison x is greater than c: false for NaN, true for
positive Infinity. -/
def jsGt (x : JsNum) (c : ℚ) : Bool :=
  match x with
  | JsNum.nan => false
  | JsNum.inf => true
  | JsNum.val q => decide (q > c)

/-- Result record of performVisualComparison.  The source formats the two
percentage metrics with toFixed(3) for output; the numeric values are kept
here. -/
structure ComparisonResult where
  changePercentage : JsNum
  availabilityScore : JsNum
  changedPixels : Nat
  totalPixels : Nat
  availabilityIncrease : Nat
  dateHighlightChanges : Nat
  nonAvailabilityChanges : Nat
  significantChange : Bool
  likelyNewAvailability : Bool
deriving DecidableEq

/-- performVisualComparison: fold the pixel loop, then derive the metrics
and the two decision flags. -/
def performVisualComparison (baselineBuffer currentBuffer : List Int) : ComparisonResult :=
  let s := foldPixels baselineBuffer currentBuffer
  let changePercentage := jsRatioTimes100 s.changedPixels s.totalPixels
  let availabilityScore := jsRatioTimes100 s.availabilityIncrease s.totalPixels
  { changePercentage := changePercentage
    availabilityScore := availabilityScore
    changedPixels := s.changedPixels
    totalPixels := s.totalPixels
    availabilityIncrease := s.availabilityIncrease
    dateHighlightChanges := s.dateHighlightChanges
    nonAvailabilityChanges := s.nonAvailabilityChanges
    significantChange := jsGt changePercentage 2
    likelyNewAvailability := decide (s.availabilityIncrease > 0) && jsGt availabilityScore (mkRat 1 100) }

/-- Outcome of compareWithBaseline for one period.  When a baseline buffer
exists the pixel comparison runs and comparison holds its result; when the
load fails (no baseline) no comparison is performed, comparison is none and
a fresh baseline is saved inside compareWithBaseline itself. -/
structure CompareOutcome where
  hasBaseline : Bool
  shouldNotify : Bool
  shouldUpdateBaseline : Bool
  comparison : Option ComparisonResult
deriving DecidableEq

/-- compareWithBaseline, returning the outcome together with the number of
saveBaseline calls it makes itself (1 on the missing-baseline path, 0
otherwise). -/
def compareWithBaseline (baseline : Option (List Int)) (currentScreenshot : List Int) :
    CompareOutcome × Nat :=
  match baseline with
  | some baselineBuffer =>
    let c := performVisualComparison baselineBuffer currentScreenshot
    ({ hasBaseline := true
       shouldNotify := c.significantChange && c.likelyNewAvailability
       shouldUpdateBaseline := c.significantChange
       comparison := some c }, 0)
  | none =>
    ({ hasBaseline := false
       shouldNotify := false
       shouldUpdateBaseline := false
       comparison := none }, 1)

/-- A period to monitor (one calendar month). -/
structure Period where
  key : String
  name : String
deriving DecidableEq

/-- Outcome of captureMonthWithRetry for a period: a screenshot, or the
error thrown after its final retry failed. -/
inductive CaptureOutcome where
  | ok : List Int → CaptureOutcome
  | fail : String → CaptureOutcome
deriving DecidableEq

/-- One entry of the results array built by the loop in runMonitor: either
the spread comparison outcome, or the catch-branch error entry with
shouldNotify false. -/
structure PeriodResult where
  month : String
  name : String
  error : Option String
  shouldNotify : Bool
  result : Option CompareOutcome
deriving DecidableEq

/-- The body of the per-month loop of runMonitor for one period. -/
def processPeriod (baselines : String → Option (List Int)) (p : Period)
    (cap : CaptureOutcome) : PeriodResult :=
  match cap with
  | CaptureOutcome.ok shot =>
    let c := (compareWithBaseline (baselines p.key) shot).1
    { month := p.key, name := p.name, error := none
      shouldNotify := c.shouldNotify, result := some c }
  | CaptureOutcome.fail msg =>
    { month := p.key, name := p.name, error := some msg
      shouldNotify := false, result := none }

/-- Total number of saveBaseline calls made for one period during the run:
the calls made inside compareWithBaseline plus the call the loop makes when
shouldUpdateBaseline holds. -/
def processPeriodSaves (baselines : String → Option (List Int)) (p : Period)
    (cap : CaptureOutcome) : Nat :=
  match cap with
  | CaptureOutcome.ok shot =>
    let r := compareWithBaseline (baselines p.key) shot
    r.2 + (if r.1.shouldUpdateBaseline then 1 else 0)
  | CaptureOutcome.fail _ => 0

/-- The results array of a whole run, given each period's capture outcome. -/
def runMonitor (baselines : String → Option (List Int))
    (periods : List (Period × CaptureOutcome)) : List PeriodResult :=
  periods.map (fun pc => processPeriod baselines pc.1 pc.2)

/-- results.filter of the months whose comparison asked for a notification. -/
def changedMonths (results : List PeriodResult) : List PeriodResult :=
  results.filter (fun r => r.shouldNotify)

/-- The success response built by the HTTP handler once runMonitor has
resolved (per-period failures are caught inside the loop and never make
runMonitor reject, so this response carries success = true). -/
structure HandlerResponse where
  success : Bool
  monthsChecked : Nat
  changedCount : Nat
  webhookSent : Bool
deriving DecidableEq

def handlerResponse (results : List PeriodResult) : HandlerResponse :=
  { success := true
    monthsChecked := results.length
    changedCount := (changedMonths results).length
    webhookSent := decide ((changedMonths results).length > 0) }

/-- Daily webhook budget. -/
def MAX_DAILY_NOTIFICATIONS : Nat := 2

/-- Milliseconds per day; a record's calendar date is its timestamp divided
by this (the source groups timestamps with toDateString). -/
def msPerDay : Nat := 86400000

def dateOf (timestamp : Nat) : Nat := timestamp / msPerDay

/-- checkNotificationLimit: the persisted log read is modelled by an Except
value (ok with the parsed record timestamps, or error when reading or
parsing raised); on error the source falls back to an empty log, and the
outer catch likewise returns true. -/
def checkNotificationLimit (readResult : Except String (List Nat)) (todayDate : Nat) : Bool :=
  let log := match readResult with
    | Except.ok l => l
    | Except.error _ => []
  decide ((log.filter (fun t => dateOf t == todayDate)).length < MAX_DAILY_NOTIFICATIONS)

/-- Whether sendWebhookNotification actually delivers the webhook in a run:
the handler only calls it when changedMonths is nonempty, it returns early
when checkNotificationLimit denies, and delivery happens when the POST
completes with an ok status (fetchOk). -/
def webhookDelivered (results : List PeriodResult)
    (readResult : Except String (List Nat)) (todayDate : Nat) (fetchOk : Bool) : Bool :=
  decide ((changedMonths results).length > 0) &&
  checkNotificationLimit readResult todayDate && fetchOk

/-- Lowercasing of the extracted text (toLowerCase in the source). -/
def lowerStr (s : List Char) : List Char := s.map Char.toLower

/-- Substring containment (String.includes in the source). -/
def hasSubstr (needle hay : List Char) : Bool :=
  (List.range (hay.length + 1)).any (fun i => (hay.drop i).take needle.length == needle)

def monthNames : List (List Char) :=
  ["january".data, "february".data, "march".data, "april".data, "may".data, "june".data,
   "july".data, "august".data, "september".data, "october".data, "november".data,
   "december".data]

/-- hasExpectedMonth: textLower.includes(expectedMonth.toLowerCase()), with
the special target value any always accepted. -/
def hasExpectedMonth (allText expectedMonth : List Char) : Bool :=
  expectedMonth == "any".data || hasSubstr (lowerStr expectedMonth) (lowerStr allText)

/-- hasExpectedYear: allText.includes(expectedYear.toString()). -/
def hasExpectedYear (allText : List Char) (expectedYear : Nat) : Bool :=
  hasSubstr (toString expectedYear).data allText

/-- otherMonths: every month name other than the expected one that occurs
in the lowercased text. -/
def otherMonths (allText expectedMonth : List Char) : List (List Char) :=
  if expectedMonth == "any".data then []
  else monthNames.filter (fun m =>
    m != lowerStr expectedMonth && hasSubstr m (lowerStr allText))

/-- ASCII whitespace for the regex character class used by the source. -/
def isWS (c : Char) : Bool :=
  c == ' ' || c == '\t' || c == '\n' || c == '\r' ||
  c == Char.ofNat 11 || c == Char.ofNat 12

/-- Substring search for the pattern a, whitespace (at least one character
when plusWS, else any number), then b: the regexes a\s+b and a\s*b. -/
def seqWS (a b : List Char) (plusWS : Bool) (text : List Char) : Bool :=
  (List.range (text.length + 1)).any (fun i =>
    let t := text.drop i
    t.take a.length == a &&
    (let rest := t.drop a.length
     let maxWs := (rest.takeWhile isWS).length
     (List.range (maxWs + 1)).any (fun k =>
       (!plusWS || decide (k ≥ 1)) && ((rest.drop k).take b.length == b))))

/-- Substring search for the regex a,?\s*b: a, an optional comma, any
whitespace, then b. -/
def seqCommaWS (a b : List Char) (text : List Char) : Bool :=
  (List.range (text.length + 1)).any (fun i =>
    let t := text.drop i
    t.take a.length == a &&
    (let rest := t.drop a.length
     let branches := rest :: (match rest with
       | c :: r => if c == ',' then [r] else []
       | [] => [])
     branches.any (fun r =>
       let maxWs := (r.takeWhile isWS).length
       (List.range (maxWs + 1)).any (fun k => (r.drop k).take b.length == b))))

/-- hasExactPattern: one of the four case-insensitive month-year regexes of
the source matches (month\s+year, month,?\s*year, year\s+month, and the
three-letter month abbreviation followed by the year); the target any is
always accepted.  Case-insensitivity is realised by matching the lowercased
pattern inside the lowercased text. -/
def hasExactPattern (allText expectedMonth : List Char) (expectedYear : Nat) : Bool :=
  expectedMonth == "any".data ||
  (let tl := lowerStr allText
   let m := lowerStr expectedMonth
   let y := (toString expectedYear).data
   seqWS m y true tl || seqCommaWS m y tl || seqWS y m true tl ||
   seqWS (m.take 3) y true tl)

/-- The confidence accumulation of validateMonthWithTextExtraction, in
tenths of the source's floating point weights: starts at 0, +4 tenths for
the expected month, +3 for the expected year, +4 for an exact month-year
pattern, +2 when no other month name occurs, -3 when more than two other
month names occur. -/
def confidenceTenths (hasMonth hasYear hasExact : Bool) (otherCount : Nat) : Int :=
  (if hasMonth then 4 else 0) + (if hasYear then 3 else 0) +
  (if hasExact then 4 else 0) + (if otherCount = 0 then 2 else 0) -
  (if otherCount > 2 then 3 else 0)

/-- Math.min(Math.max(confidence, 0), 1.0). -/
def clamp01 (q : ℚ) : ℚ := min (max q 0) 1

/-- The weighted sum before clamping, as an exact rational. -/
def rawScoreOf (allText expectedMonth : List Char) (expectedYear : Nat) : ℚ :=
  mkRat (confidenceTenths (hasExpectedMonth allText expectedMonth)
    (hasExpectedYear allText expectedYear)
    (hasExactPattern allText expectedMonth expectedYear)
    (otherMonths allText expectedMonth).length) 10

/-- The clamped confidence returned by validateMonthWithTextExtraction. -/
def confidenceOf (allText expectedMonth : List Char) (expectedYear : Nat) : ℚ :=
  clamp01 (rawScoreOf allText expectedMonth expectedYear)

theorem jsRatioTimes100_eq_div (num den : Nat) (h : den ≠ 0) :
    jsRatioTimes100 num den = JsNum.val ((num : ℚ) / (den : ℚ) * 100) := by
  simp only [jsRatioTimes100, if_neg h]
  congr 1
  rw [Rat.mkRat_eq_div]
  push_cast
  ring

/-- A pixel compared against itself never passes the distance threshold, so
the loop step only counts it as sampled. -/
theorem stepPixel_self (s : Counts) (r g b : Int) :
    stepPixel s r g b r g b = { s with totalPixels := s.totalPixels + 1 } := by
  simp [stepPixel, colorDiffSq]

/-- Folding a step function that only increments totalPixels over any index
range adds the range length to totalPixels. -/
theorem foldRange_inc (f : Counts → Nat → Counts)
    (hf : ∀ s k, f s k = { s with totalPixels := s.totalPixels + 1 }) :
    ∀ (n : Nat) (s : Counts),
      (List.range n).foldl f s = { s with totalPixels := s.totalPixels + n } := by
  intro n
  induction n with
  | zero => intro s; simp
  | succ m ih =>
    intro s
    rw [List.range_succ, List.foldl_append]
    simp [ih, hf]
    omega

/-- Self-comparison leaves every counter except totalPixels at zero. -/
theorem foldPixels_self (buf : List Int) :
    foldPixels buf buf = ⟨buf.length / 4, 0, 0, 0, 0⟩ := by
  unfold foldPixels
  rw [foldRange_inc]
  · simp
  · intro s k
    exact stepPixel_self s _ _ _

/-- Claim C1, counterexample.  For otherwise-identical 1-pixel RGBA images
with baseline RGB (255,255,255) and current RGB (225,225,220), the claim
says availabilityIncreasePixels = 1, availabilityScore = 100 and
shouldNotify = true; the classifier actually discards the pixel as a
date-highlight change, so none of the three holds. -/
theorem c1_counterexample :
    ¬ ((performVisualComparison [255, 255, 255, 255] [225, 225, 220, 255]).availabilityIncrease = 1 ∧
       (performVisualComparison [255, 255, 255, 255] [225, 225, 220, 255]).availabilityScore =
         JsNum.val 100 ∧
       (compareWithBaseline (some [255, 255, 255, 255]) [225, 225, 220, 255]).1.shouldNotify =
         true) := by
  decide

/-- Claim C1, amended.  The current pixel (225,225,220) satisfies the blue
highlight band (r over 150, g over 170, b over 200) and the baseline pixel
(255,255,255) satisfies the near-white highlight band, so the pixel is
discarded as UI noise: dateHighlightChanges = 1, changedPixels = 0,
availabilityIncreasePixels = 0, availabilityScore = 0 and
shouldNotify = false. -/
theorem c1_amended :
    (performVisualComparison [255, 255, 255, 255] [225, 225, 220, 255]).dateHighlightChanges = 1 ∧
    (performVisualComparison [255, 255, 255, 255] [225, 225, 220, 255]).changedPixels = 0 ∧
    (performVisualComparison [255, 255, 255, 255] [225, 225, 220, 255]).availabilityIncrease = 0 ∧
    (performVisualComparison [255, 255, 255, 255] [225, 225, 220, 255]).availabilityScore =
      JsNum.val 0 ∧
    (compareWithBaseline (some [255, 255, 255, 255]) [225, 225, 220, 255]).1.shouldNotify =
      false := by
  decide

/-- Claim C3, counterexample.  The claim quantifies over every input
buffer, but for the empty buffer the self-comparison has totalPixels = 0
and changePercentage is the NaN of the 0/0 division, not 0 (shouldNotify is
still false there). -/
theorem c3_counterexample :
    ¬ ((performVisualComparison [] []).changePercentage = JsNum.val 0 ∧
       (compareWithBaseline (some []) []).1.shouldNotify = false) := by
  decide

/-- Claim C3, amended.  Comparing any buffer against itself yields
shouldNotify = false, and changePercentage = 0 whenever the buffer holds at
least one complete 4-byte pixel; for shorter buffers the percentage is the
NaN of the 0/0 division. -/
theorem c3_amended (b : List Int) :
    (4 ≤ b.length → (performVisualComparison b b).changePercentage = JsNum.val 0) ∧
    (compareWithBaseline (some b) b).1.shouldNotify = false := by
  have hfold := foldPixels_self b
  constructor
  · intro h4
    have hn : b.length / 4 ≠ 0 := by
      have : 1 ≤ b.length / 4 := Nat.le_div_iff_mul_le (by norm_num) |>.2 (by omega)
      omega
    simp [performVisualComparison, hfold, jsRatioTimes100, hn]
  · simp [compareWithBaseline, performVisualComparison, hfold, jsGt]

/-- Claim C3, witness for the amended theorem at a concrete 1-pixel
buffer. -/
theorem c3_witness :
    (4 ≤ ([0, 0, 0, 0] : List Int).length ∧
     (performVisualComparison [0, 0, 0, 0] [0, 0, 0, 0]).changePercentage = JsNum.val 0) ∧
    (compareWithBaseline (some [0, 0, 0, 0]) [0, 0, 0, 0]).1.shouldNotify = false :=
  ⟨⟨by decide, (c3_amended [0, 0, 0, 0]).1 (by decide)⟩, (c3_amended [0, 0, 0, 0]).2⟩

/-- Claim C4.  When no baseline is stored for the period, the compare
operation performs no pixel diff (its comparison payload is none), reports
hasBaseline = false, shouldNotify = false and shouldUpdateBaseline = false,
and exactly one saveBaseline call happens for the period in the run: the
one inside compareWithBaseline, with the loop's conditional update skipped
because shouldUpdateBaseline is false. -/
theorem c4_claim (baselines : String → Option (List Int)) (p : Period) (shot : List Int)
    (h : baselines p.key = none) :
    (processPeriod baselines p (CaptureOutcome.ok shot)).result =
      some { hasBaseline := false, shouldNotify := false, shouldUpdateBaseline := false,
             comparison := none } ∧
    (processPeriod baselines p (CaptureOutcome.ok shot)).shouldNotify = false ∧
    processPeriodSaves baselines p (CaptureOutcome.ok shot) = 1 := by
  simp [processPeriod, processPeriodSaves, compareWithBaseline, h]

/-- Claim C4, witness at a concrete period with an empty baseline store. -/
theorem c4_witness :
    ((fun _ => (none : Option (List Int))) "2025-09" = none) ∧
    ((processPeriod (fun _ => none) ⟨"2025-09", "September 2025"⟩
        (CaptureOutcome.ok [0, 0, 0, 0])).result =
      some { hasBaseline := false, shouldNotify := false, shouldUpdateBaseline := false,
             comparison := none } ∧
     (processPeriod (fun _ => none) ⟨"2025-09", "September 2025"⟩
        (CaptureOutcome.ok [0, 0, 0, 0])).shouldNotify = false ∧
     processPeriodSaves (fun _ => none) ⟨"2025-09", "September 2025"⟩
        (CaptureOutcome.ok [0, 0, 0, 0]) = 1) :=
  ⟨rfl, c4_claim (fun _ => none) ⟨"2025-09", "September 2025"⟩ [0, 0, 0, 0] rfl⟩

/-- Claim C5.  canSend is true exactly when fewer than two records in the
successfully read log carry today's calendar date; with two or more
same-day records a further call returns false, and on a date carried by no
record (the day after a roll-over) it returns true again. -/
theorem c5_claim (log : List Nat) (today : Nat) :
    (checkNotificationLimit (Except.ok log) today = true ↔
      (log.filter (fun t => dateOf t == today)).length < MAX_DAILY_NOTIFICATIONS) ∧
    (2 ≤ (log.filter (fun t => dateOf t == today)).length →
      checkNotificationLimit (Except.ok log) today = false) ∧
    ((∀ t ∈ log, dateOf t ≠ today) → checkNotificationLimit (Except.ok log) today = true) := by
  refine ⟨by simp [checkNotificationLimit], ?_, ?_⟩
  · intro h2
    simp only [checkNotificationLimit, MAX_DAILY_NOTIFICATIONS, decide_eq_false_iff_not]
    omega
  · intro hall
    have hnil : log.filter (fun t => dateOf t == today) = [] := by
      rw [List.filter_eq_nil_iff]
      intro t ht
      simpa using hall t ht
    simp [checkNotificationLimit, hnil, MAX_DAILY_NOTIFICATIONS]

/-- Claim C5, witness: timestamps 0 and 1 fall on day 0, so with two such
records a call on day 0 returns false and a call on day 1 returns true. -/
theorem c5_witness :
    (2 ≤ (([0, 1] : List Nat).filter (fun t => dateOf t == 0)).length ∧
     checkNotificationLimit (Except.ok [0, 1]) 0 = false) ∧
    ((∀ t ∈ ([0, 1] : List Nat), dateOf t ≠ 1) ∧
     checkNotificationLimit (Except.ok [0, 1]) 1 = true) :=
  ⟨⟨by decide, (c5_claim [0, 1] 0).2.1 (by decide)⟩,
   ⟨by decide, (c5_claim [0, 1] 1).2.2 (by decide)⟩⟩

/-- Claim C6.  The navigation confidence is the clamp to the unit interval
of the weighted sum with weights +0.4 (expected month present), +0.3
(expected year present), +0.4 (exact month-year pattern), +0.2 (no other
month name), -0.3 (more than two other month names); text carrying month,
year and exact pattern with no other month clamps to exactly 1, and the
same signals with three other month names lower the weighted sum by 0.5,
at least 0.3 below the base score. -/
theorem c6_claim (allText allText2 expectedMonth : List Char) (expectedYear : Nat)
    (hm : hasExpectedMonth allText expectedMonth = true)
    (hy : hasExpectedYear allText expectedYear = true)
    (he : hasExactPattern allText expectedMonth expectedYear = true)
    (h0 : otherMonths allText expectedMonth = [])
    (hm2 : hasExpectedMonth allText2 expectedMonth = true)
    (hy2 : hasExpectedYear allText2 expectedYear = true)
    (he2 : hasExactPattern allText2 expectedMonth expectedYear = true)
    (h3 : (otherMonths allText2 expectedMonth).length = 3) :
    confidenceOf allText expectedMonth expectedYear =
      clamp01 (rawScoreOf allText expectedMonth expectedYear) ∧
    confidenceOf allText expectedMonth expectedYear = 1 ∧
    rawScoreOf allText expectedMonth expectedYear -
      rawScoreOf allText2 expectedMonth expectedYear ≥ 3 / 10 := by
  refine ⟨rfl, ?_, ?_⟩
  · simp only [confidenceOf, rawScoreOf, hm, hy, he, h0]
    decide
  · simp only [rawScoreOf, hm, hy, he, h0, hm2, hy2, he2, h3]
    norm_num [confidenceTenths, Rat.mkRat_eq_div]

/-- Claim C6, witness on concrete extracted texts: the target pattern alone
gives confidence 1, and the same text followed by three other month names
drops the weighted sum by at least 0.3. -/
theorem c6_witness :
    (hasExpectedMonth "january 2025".data "january".data = true ∧
     hasExpectedYear "january 2025".data 2025 = true ∧
     hasExactPattern "january 2025".data "january".data 2025 = true ∧
     otherMonths "january 2025".data "january".data = [] ∧
     hasExpectedMonth "january 2025 february march april".data "january".data = true ∧
     hasExpectedYear "january 2025 february march april".data 2025 = true ∧
     hasExactPattern "january 2025 february march april".data "january".data 2025 = true ∧
     (otherMonths "january 2025 february march april".data "january".data).length = 3) ∧
    confidenceOf "january 2025".data "january".data 2025 = 1 ∧
    rawScoreOf "january 2025".data "january".data 2025 -
      rawScoreOf "january 2025 february march april".data "january".data 2025 ≥ 3 / 10 :=
  ⟨⟨by decide, by decide, by decide, by decide, by decide, by decide, by decide, by decide⟩,
   (c6_claim "january 2025".data "january 2025 february march april".data
      "january".data 2025 (by decide) (by decide) (by decide) (by decide)
      (by decide) (by decide) (by decide) (by decide)).2.1,
   (c6_claim "january 2025".data "january 2025 february march april".data
      "january".data 2025 (by decide) (by decide) (by decide) (by decide)
      (by decide) (by decide) (by decide) (by decide)).2.2⟩

/-- Claim C7.  Whenever the RGB distance of a pixel pair exceeds the
change threshold (squared distance over 900) and either side matches a
date-highlight band, the loop step counts the pixel only in the
dateHighlightChanges discard counter and leaves changedPixels untouched,
regardless of how large the distance is. -/
theorem c7_claim (s : Counts) (cr cg cb br bg bb : Int)
    (hdiff : colorDiffSq cr cg cb br bg bb > 900)
    (hhl : isDateHighlight cr cg cb = true ∨ isDateHighlight br bg bb = true) :
    stepPixel s cr cg cb br bg bb =
      { s with totalPixels := s.totalPixels + 1,
               dateHighlightChanges := s.dateHighlightChanges + 1 } := by
  have hb : (isDateHighlight cr cg cb || isDateHighlight br bg bb) = true := by
    rcases hhl with h | h <;> simp [h]
  simp [stepPixel, hdiff, hb]

/-- Claim C7, witness: a pure white current pixel against a black baseline
pixel has squared distance 195075, far beyond the threshold, and is still
discarded because white matches the highlight band. -/
theorem c7_witness :
    (colorDiffSq 255 255 255 0 0 0 > 900 ∧ isDateHighlight 255 255 255 = true) ∧
    stepPixel ⟨0, 0, 0, 0, 0⟩ 255 255 255 0 0 0 = ⟨1, 0, 0, 1, 0⟩ :=
  ⟨⟨by decide, by decide⟩,
   (c7_claim ⟨0, 0, 0, 0, 0⟩ 255 255 255 0 0 0 (by decide) (Or.inl (by decide))).trans rfl⟩

/-- Claim C2, counterexample.  In a run whose single period shows a genuine
availability change, but whose notification log already holds two records
for today, the throttle denies delivery, yet the handler still reports
webhookSent = true: the field only mirrors whether changedMonths is
nonempty. -/
theorem c2_counterexample :
    ¬ ((handlerResponse (runMonitor (fun _ => some [100, 50, 50, 255])
          [(⟨"2025-09", "September 2025"⟩, CaptureOutcome.ok [230, 210, 190, 255])])).webhookSent
            = true ↔
       webhookDelivered (runMonitor (fun _ => some [100, 50, 50, 255])
          [(⟨"2025-09", "September 2025"⟩, CaptureOutcome.ok [230, 210, 190, 255])])
          (Except.ok [0, 0]) 0 true = true) := by
  decide

/-- Claim C2, amended.  The webhookSent field of the success response is
true exactly when at least one comparison in the run was notable (some
result carries shouldNotify = true), i.e. when a webhook delivery was
attempted; an actual delivery additionally requires the throttle's
permission and a successful POST, so delivery implies webhookSent but not
conversely. -/
theorem c2_amended (results : List PeriodResult)
    (readResult : Except String (List Nat)) (today : Nat) (fetchOk : Bool) :
    ((handlerResponse results).webhookSent = true ↔ ∃ r ∈ results, r.shouldNotify = true) ∧
    (webhookDelivered results readResult today fetchOk = true →
      (handlerResponse results).webhookSent = true) := by
  constructor
  · simp [handlerResponse, changedMonths, List.length_pos, List.filter_eq_nil_iff]
  · intro hd
    simp only [webhookDelivered, Bool.and_eq_true] at hd
    simpa [handlerResponse] using hd.1.1

/-- Claim C2, witness for the amended theorem: a run with one notable
result, a fresh log and a successful POST both delivers and reports
webhookSent = true. -/
theorem c2_witness :
    webhookDelivered
      [{ month := "2025-09", name := "September 2025", error := none,
         shouldNotify := true, result := none }] (Except.ok []) 0 true = true ∧
    (handlerResponse
      [{ month := "2025-09", name := "September 2025", error := none,
         shouldNotify := true, result := none }]).webhookSent = true :=
  ⟨by decide,
   (c2_amended
      [{ month := "2025-09", name := "September 2025", error := none,
         shouldNotify := true, result := none }] (Except.ok []) 0 true).2 (by decide)⟩

/-- Claim C8.  A period whose capture or navigation failed all its retries
is recorded in the results array as an error entry with shouldNotify set to
false, the run still produces one result per period, and the handler's
success flag is still true. -/
theorem c8_claim (baselines : String → Option (List Int))
    (periods : List (Period × CaptureOutcome)) (i : Nat) (p : Period) (msg : String)
    (h : periods[i]? = some (p, CaptureOutcome.fail msg)) :
    (runMonitor baselines periods).length = periods.length ∧
    (runMonitor baselines periods)[i]? =
      some { month := p.key, name := p.name, error := some msg,
             shouldNotify := false, result := none } ∧
    (handlerResponse (runMonitor baselines periods)).success = true := by
  refine ⟨by simp [runMonitor], ?_, rfl⟩
  simp [runMonitor, List.getElem?_map, h, processPeriod]

/-- Claim C8, witness: a 3-period run whose middle period failed every
retry still yields three results, an error entry with shouldNotify = false
in the middle, and a successful response. -/
theorem c8_witness :
    (([(⟨"2025-09", "September 2025"⟩, CaptureOutcome.ok [0, 0, 0, 0]),
       (⟨"2025-10", "October 2025"⟩, CaptureOutcome.fail "Cannot detect month"),
       (⟨"2025-11", "November 2025"⟩, CaptureOutcome.ok [0, 0, 0, 0])] :
        List (Period × CaptureOutcome))[1]? =
      some (⟨"2025-10", "October 2025"⟩, CaptureOutcome.fail "Cannot detect month")) ∧
    ((runMonitor (fun _ => none)
        [(⟨"2025-09", "September 2025"⟩, CaptureOutcome.ok [0, 0, 0, 0]),
         (⟨"2025-10", "October 2025"⟩, CaptureOutcome.fail "Cannot detect month"),
         (⟨"2025-11", "November 2025"⟩, CaptureOutcome.ok [0, 0, 0, 0])]).length =
       ([(⟨"2025-09", "September 2025"⟩, CaptureOutcome.ok [0, 0, 0, 0]),
         (⟨"2025-10", "October 2025"⟩, CaptureOutcome.fail "Cannot detect month"),
         (⟨"2025-11", "November 2025"⟩, CaptureOutcome.ok [0, 0, 0, 0])] :
          List (Period × CaptureOutcome)).length ∧
     (runMonitor (fun _ => none)
        [(⟨"2025-09", "September 2025"⟩, CaptureOutcome.ok [0, 0, 0, 0]),
         (⟨"2025-10", "October 2025"⟩, CaptureOutcome.fail "Cannot detect month"),
         (⟨"2025-11", "November 2025"⟩, CaptureOutcome.ok [0, 0, 0, 0])])[1]? =
       some { month := "2025-10", name := "October 2025", error := some "Cannot detect month",
              shouldNotify := false, result := none } ∧
     (handlerResponse (runMonitor (fun _ => none)
        [(⟨"2025-09", "September 2025"⟩, CaptureOutcome.ok [0, 0, 0, 0]),
         (⟨"2025-10", "October 2025"⟩, CaptureOutcome.fail "Cannot detect month"),
         (⟨"2025-11", "November 2025"⟩, CaptureOutcome.ok [0, 0, 0, 0])])).success = true) :=
  ⟨rfl,
   c8_claim (fun _ => none)
     [(⟨"2025-09", "September 2025"⟩, CaptureOutcome.ok [0, 0, 0, 0]),
      (⟨"2025-10", "October 2025"⟩, CaptureOutcome.fail "Cannot detect month"),
      (⟨"2025-11", "November 2025"⟩, CaptureOutcome.ok [0, 0, 0, 0])]
     1 ⟨"2025-10", "October 2025"⟩ "Cannot detect month" rfl⟩

/-- Claim C9.  When the common prefix of the two buffers is shorter than
one full 4-byte pixel, no pixel is sampled: totalPixels = 0, the percentage
divisions are the NaN of 0/0, and both decision flags and shouldNotify are
false, so degenerate captures can never trigger a notification. -/
theorem c9_claim (b c : List Int) (h : min b.length c.length < 4) :
    (performVisualComparison b c).totalPixels = 0 ∧
    (performVisualComparison b c).changePercentage = JsNum.nan ∧
    (performVisualComparison b c).significantChange = false ∧
    (performVisualComparison b c).likelyNewAvailability = false ∧
    (compareWithBaseline (some b) c).1.shouldNotify = false := by
  have hn : (min b.length c.length) / 4 = 0 := Nat.div_eq_of_lt h
  have hfold : foldPixels b c = ⟨0, 0, 0, 0, 0⟩ := by
    unfold foldPixels
    rw [hn]
    simp
  simp [performVisualComparison, compareWithBaseline, hfold, jsRatioTimes100, jsGt]

/-- Claim C9, witness at an empty baseline buffer against a 3-byte
capture. -/
theorem c9_witness :
    (min ([] : List Int).length ([1, 2, 3] : List Int).length < 4 ∧
     (performVisualComparison [] [1, 2, 3]).totalPixels = 0) ∧
    (compareWithBaseline (some []) [1, 2, 3]).1.shouldNotify = false :=
  ⟨⟨by decide, (c9_claim [] [1, 2, 3] (by decide)).1⟩,
   (c9_claim [] [1, 2, 3] (by decide)).2.2.2.2⟩

/-- Claim C10.  The throttle fails open: when reading or parsing the
persisted log raises, checkNotificationLimit falls back to an empty log and
returns true, although an intact log holding two records of the same day
would make the same call return false. -/
theorem c10_claim (e : String) (today : Nat) (t : Nat) :
    checkNotificationLimit (Except.error e) today = true ∧
    checkNotificationLimit (Except.ok [t, t]) (dateOf t) = false := by
  constructor
  · simp [checkNotificationLimit, MAX_DAILY_NOTIFICATIONS]
  · simp [checkNotificationLimit, MAX_DAILY_NOTIFICATIONS]

end Snowmass
